import Mathlib

/-!
Verification development for the otelservices repository: a shallow
embedding of the OTLP collector decoder (cmd/collector main, the file
defining TraceCollector, MetricsCollector, LogsCollector and their
Export handlers), the ClickHouse columnar writer (internal/clickhouse),
and the query router (cmd/query/main.go), together with theorems about
the claims of the specification.

Go machine integers are modelled as Nat with explicit reduction modulo
2 to the 64 or 2 to the 8 where the code performs wrapping arithmetic or
narrowing conversions.  Byte slices are lists of Nat (each element a
byte value below 256).  time.Time values that the code builds with
time.Unix(0, n) are modelled by the nanosecond count n itself.
-/

/-- Modulus of the Go uint64 type. -/
def u64Mod : Nat := 2 ^ 64

/-- Go uint64 subtraction a - b, which wraps modulo 2 to the 64.  For
a, b below the modulus with b not above a this is plain subtraction. -/
def u64Sub (a b : Nat) : Nat := (a % u64Mod + (u64Mod - b % u64Mod)) % u64Mod

/-- The lowercase hexadecimal digit table used by Go fmt: the constant
lowerhex of the fmt package. -/
def lowerHex : String := "0123456789abcdef"

/-- Digit n of the lowercase hexadecimal table. -/
def hexDigit (n : Nat) : Char := lowerHex.data.getD n '0'

/-- One byte rendered as two lowercase hexadecimal characters, exactly as
Go fmt renders each byte of a byte slice under the x verb. -/
def byteHex (b : Nat) : List Char := [hexDigit (b / 16 % 16), hexDigit (b % 16)]

/-- Go fmt.Sprintf with the x verb applied to a byte slice: each byte in
order becomes two lowercase hexadecimal characters; the empty slice
becomes the empty string. -/
def hexEncode (bs : List Nat) : String := ⟨bs.flatMap byteHex⟩

/-- Characters that are lowercase hexadecimal digits. -/
def isLowerHexDigit (c : Char) : Bool :=
  (48 ≤ c.toNat && c.toNat ≤ 57) || (97 ≤ c.toNat && c.toNat ≤ 102)

/-! ## OTLP protobuf input model

The protobuf messages of opentelemetry-proto, restricted to the fields
the collector reads.  Enum values carry the String() rendering of the
generated Go code, which yields the upper-case protobuf value names
(for example SPAN_KIND_SERVER and STATUS_CODE_OK). -/

/-- Span kind enum of opentelemetry-proto trace.v1. -/
inductive SpanKind where
  | unspecified
  | internal
  | server
  | client
  | producer
  | consumer
deriving DecidableEq

/-- The String() method of the generated Go enum type for span kinds:
it returns the protobuf value name. -/
def SpanKind.goString : SpanKind → String
  | .unspecified => "SPAN_KIND_UNSPECIFIED"
  | .internal => "SPAN_KIND_INTERNAL"
  | .server => "SPAN_KIND_SERVER"
  | .client => "SPAN_KIND_CLIENT"
  | .producer => "SPAN_KIND_PRODUCER"
  | .consumer => "SPAN_KIND_CONSUMER"

/-- Status code enum of opentelemetry-proto trace.v1. -/
inductive StatusCode where
  | unset
  | ok
  | error
deriving DecidableEq

/-- The String() method of the generated Go enum type for status codes. -/
def StatusCode.goString : StatusCode → String
  | .unset => "STATUS_CODE_UNSET"
  | .ok => "STATUS_CODE_OK"
  | .error => "STATUS_CODE_ERROR"

/-- Span status message of opentelemetry-proto. -/
structure OtlpStatus where
  Code : StatusCode
  Message : String

/-- An OTLP span, restricted to the fields the collector reads.
Identifier fields are raw byte slices. -/
structure OtlpSpan where
  TraceId : List Nat
  SpanId : List Nat
  ParentSpanId : List Nat
  Name : String
  Kind : SpanKind
  StartTimeUnixNano : Nat
  EndTimeUnixNano : Nat
  Status : Option OtlpStatus
  Attributes : List (String × String)

/-- An OTLP resource: its attribute list. -/
structure Resource where
  Attributes : List (String × String)

/-- An OTLP ScopeSpans block. -/
structure ScopeSpans where
  Spans : List OtlpSpan

/-- An OTLP ResourceSpans block. -/
structure ResourceSpans where
  Resource : Resource
  ScopeSpans : List ScopeSpans

/-! ## Row model (internal/models) -/

/-- models.SpanEvent. -/
structure SpanEvent where
  Timestamp : Nat
  Name : String
  Attributes : List (String × String)

/-- models.SpanLink. -/
structure SpanLink where
  TraceID : String
  SpanID : String
  TraceState : String
  Attributes : List (String × String)

/-- models.Span, the normalized span row. -/
structure Span where
  Timestamp : Nat
  TraceID : String
  SpanID : String
  ParentSpanID : String
  SpanName : String
  SpanKind : String
  StartTime : Nat
  EndTime : Nat
  DurationNs : Nat
  StatusCode : String
  StatusMessage : String
  ServiceName : String
  ServiceNamespace : String
  ServiceInstanceID : String
  DeploymentEnvironment : String
  Attributes : List (String × String)
  ResourceAttributes : List (String × String)
  Events : List SpanEvent
  Links : List SpanLink
  InstrumentationScopeName : String
  InstrumentationScopeVersion : String

/-! ## Decoder helpers of the collector -/

/-- The extractStringAttribute helper of the collector main file.  Its Go
body attempts a type assertion of the attribute list to a slice type
that the generated protobuf code never produces, so the loop body is
unreachable and every call returns the empty string. -/
def extractStringAttribute (_resource : Resource) (_key : String) : String := ""

/-- The convertAttributes helper of the collector main file.  Its Go body
allocates an empty map and returns it without reading the input. -/
def convertAttributes (_attrs : List (String × String)) : List (String × String) := []

/-- Decoding of one OTLP span into a models.Span row, following the body
of TraceCollector.Export: identifiers are hex encoded with the x verb,
the kind and status enums are rendered with the generated String()
method, and the duration is the wrapping uint64 difference of the end
and start nanosecond stamps.  Fields the collector never assigns keep
the Go zero value. -/
def decodeSpan (serviceName serviceNamespace serviceInstanceID deploymentEnv : String)
    (span : OtlpSpan) : Span :=
  { Timestamp := span.StartTimeUnixNano
    TraceID := hexEncode span.TraceId
    SpanID := hexEncode span.SpanId
    ParentSpanID := hexEncode span.ParentSpanId
    SpanName := span.Name
    SpanKind := span.Kind.goString
    StartTime := span.StartTimeUnixNano
    EndTime := span.EndTimeUnixNano
    DurationNs := u64Sub span.EndTimeUnixNano span.StartTimeUnixNano
    StatusCode := ((span.Status.map OtlpStatus.Code).getD StatusCode.unset).goString
    StatusMessage := (span.Status.map OtlpStatus.Message).getD ""
    ServiceName := serviceName
    ServiceNamespace := serviceNamespace
    ServiceInstanceID := serviceInstanceID
    DeploymentEnvironment := deploymentEnv
    Attributes := convertAttributes span.Attributes
    ResourceAttributes := []
    Events := []
    Links := []
    InstrumentationScopeName := ""
    InstrumentationScopeVersion := "" }

/-- The record construction performed by TraceCollector.Export over a
whole export request: per resource block the service identity strings
are extracted, then every span of every scope block is decoded in
order.  The result is the list of rows the handler offers to the span
channel. -/
def traceExport (req : List ResourceSpans) : List Span :=
  req.flatMap fun rs =>
    let serviceName := extractStringAttribute rs.Resource "service.name"
    let serviceNamespace := extractStringAttribute rs.Resource "service.namespace"
    let serviceInstanceID := extractStringAttribute rs.Resource "service.instance.id"
    let deploymentEnv := extractStringAttribute rs.Resource "deployment.environment"
    rs.ScopeSpans.flatMap fun ss =>
      ss.Spans.map (decodeSpan serviceName serviceNamespace serviceInstanceID deploymentEnv)

/-! ## OTLP logs input model and its decoding -/

/-- An OTLP log record, restricted to the fields the collector reads.
The Body field of the protobuf message is a pointer to an AnyValue; the
collector reads it only through GetStringValue, which returns the
string payload when the value is of string kind and the empty string
otherwise, so the model keeps just that optional string payload. -/
structure OtlpLogRecord where
  TimeUnixNano : Nat
  ObservedTimeUnixNano : Nat
  SeverityNumber : Nat
  SeverityText : String
  BodyStringValue : Option String
  TraceId : List Nat
  SpanId : List Nat
  Flags : Nat
  Attributes : List (String × String)

/-- An OTLP ScopeLogs block. -/
structure ScopeLogs where
  LogRecords : List OtlpLogRecord

/-- An OTLP ResourceLogs block. -/
structure ResourceLogs where
  Resource : Resource
  ScopeLogs : List ScopeLogs

/-- models.LogRecord, the normalized log row. -/
structure LogRecord where
  Timestamp : Nat
  ObservedTimestamp : Nat
  SeverityNumber : Nat
  SeverityText : String
  Body : String
  BodyType : String
  ServiceName : String
  ServiceNamespace : String
  ServiceInstanceID : String
  DeploymentEnvironment : String
  HostName : String
  TraceID : String
  SpanID : String
  TraceFlags : Nat
  Attributes : List (String × String)
  ResourceAttributes : List (String × String)
  InstrumentationScopeName : String
  InstrumentationScopeVersion : String

/-- The record construction performed by LogsCollector.Export: per
resource block the service identity strings and the host name are
extracted, then every log record of every scope block is decoded in
order.  The severity number and the flags pass through uint8
conversions, modelled by reduction modulo 256. -/
def logsExport (req : List ResourceLogs) : List LogRecord :=
  req.flatMap fun rl =>
    let serviceName := extractStringAttribute rl.Resource "service.name"
    let serviceNamespace := extractStringAttribute rl.Resource "service.namespace"
    let serviceInstanceID := extractStringAttribute rl.Resource "service.instance.id"
    let deploymentEnv := extractStringAttribute rl.Resource "deployment.environment"
    let hostName := extractStringAttribute rl.Resource "host.name"
    rl.ScopeLogs.flatMap fun sl =>
      sl.LogRecords.map fun logRecord =>
        { Timestamp := logRecord.TimeUnixNano
          ObservedTimestamp := logRecord.ObservedTimeUnixNano
          SeverityNumber := logRecord.SeverityNumber % 256
          SeverityText := logRecord.SeverityText
          Body := logRecord.BodyStringValue.getD ""
          BodyType := "string"
          ServiceName := serviceName
          ServiceNamespace := serviceNamespace
          ServiceInstanceID := serviceInstanceID
          DeploymentEnvironment := deploymentEnv
          HostName := hostName
          TraceID := hexEncode logRecord.TraceId
          SpanID := hexEncode logRecord.SpanId
          TraceFlags := logRecord.Flags % 256
          Attributes := convertAttributes logRecord.Attributes
          ResourceAttributes := []
          InstrumentationScopeName := ""
          InstrumentationScopeVersion := "" }

/-! ## OTLP metrics input model and the metrics Export handler -/

/-- One metric data point of an OTLP metric; only the count of data
points matters to the claims, the payload is carried for shape. -/
structure DataPoint where
  TimeUnixNano : Nat
  ValueBits : Nat

/-- An OTLP metric with its data points. -/
structure OtlpMetric where
  Name : String
  DataPoints : List DataPoint

/-- An OTLP ScopeMetrics block. -/
structure ScopeMetrics where
  Metrics : List OtlpMetric

/-- An OTLP ResourceMetrics block. -/
structure ResourceMetrics where
  Resource : Resource
  ScopeMetrics : List ScopeMetrics

/-- models.Metric, the normalized metric row.  The float64 value field
is carried as its bit pattern; no claim inspects it. -/
structure Metric where
  Timestamp : Nat
  MetricName : String
  MetricType : String
  ValueBits : Nat
  ServiceName : String
  ServiceNamespace : String
  ServiceInstanceID : String
  DeploymentEnvironment : String
  Attributes : List (String × String)
  ResourceAttributes : List (String × String)
  BucketCounts : List Nat
  ExplicitBounds : List Nat
  InstrumentationScopeName : String
  InstrumentationScopeVersion : String

/-- Outcome of MetricsCollector.Export on one request. -/
structure MetricsExportOutcome where
  enqueued : List Metric
  receivedCounterInc : Nat

/-- The body of MetricsCollector.Export: for each resource block it
extracts the service name, then iterates the scope blocks only to
increment the received-metrics counter once per scope block.  No Metric
record is ever constructed and nothing is sent to the metric channel,
so the enqueued list is empty for every request. -/
def metricsExport (req : List ResourceMetrics) : MetricsExportOutcome :=
  { enqueued := []
    receivedCounterInc := (req.map fun rm => rm.ScopeMetrics.length).sum }

/-- The number of metric data points carried by an export request; this
is the number of records the specification expects the decoder to
produce. -/
def otlpDataPointCount (req : List ResourceMetrics) : Nat :=
  (req.map fun rm =>
    (rm.ScopeMetrics.map fun sm =>
      (sm.Metrics.map fun m => m.DataPoints.length).sum).sum).sum

/-! ## Queue hand-off (the select statements of the Export handlers) -/

/-- Observable outcome of one hand-off of a decoded record to a signal
channel, as performed by the select statement of an Export handler:
either the channel accepts the record and the received counter for the
signal is incremented, or the 100 millisecond timer fires first, a
warning is logged and the record is abandoned.  The monitoring package
defines no drop counter and the handlers increment none; the handler
returns success to the transport in both cases. -/
structure HandOffOutcome where
  enqueued : Bool
  waitMsBound : Nat
  receivedCounterInc : Nat
  dropCounterInc : Nat
  warningLogged : Bool
  transportError : Bool

/-- Hand-off of a span to the span channel (the select statement of
TraceCollector.Export), as a function of whether the channel stays full
for the whole wait. -/
def spanHandOff (queueFull : Bool) : HandOffOutcome :=
  if queueFull then
    { enqueued := false, waitMsBound := 100, receivedCounterInc := 0,
      dropCounterInc := 0, warningLogged := true, transportError := false }
  else
    { enqueued := true, waitMsBound := 100, receivedCounterInc := 1,
      dropCounterInc := 0, warningLogged := false, transportError := false }

/-- Hand-off of a log record to the log channel (the select statement of
LogsCollector.Export); identical shape to the span hand-off. -/
def logHandOff (queueFull : Bool) : HandOffOutcome :=
  if queueFull then
    { enqueued := false, waitMsBound := 100, receivedCounterInc := 0,
      dropCounterInc := 0, warningLogged := true, transportError := false }
  else
    { enqueued := true, waitMsBound := 100, receivedCounterInc := 1,
      dropCounterInc := 0, warningLogged := false, transportError := false }

/-! ## Columnar writer (internal/clickhouse)

The driver is modelled as an oracle: the outcome of PrepareBatch, of
each Append call (indexed by the row position) and of Send are given by
the oracle, and each insert operation returns the Go error value
together with the trace of driver calls it made, in order. -/

/-- One call made against the ClickHouse driver. -/
inductive StoreOp where
  | prepareBatch (insertSQL : String)
  | append (rowIdx : Nat)
  | send
deriving DecidableEq

/-- Oracle for the driver outcomes: the error returned by PrepareBatch,
by the Append call at each row index, and by Send. -/
structure StoreConn where
  prepareErr : Option String
  appendErr : Nat → Option String
  sendErr : Option String

/-- The append loop shared by the three insert operations: rows are
appended in input order starting at index i with k rows remaining; the
loop stops at the first failing Append and reports its error.  Returns
the driver calls made and the error of the first failing call. -/
def appendRows (st : StoreConn) (i : Nat) : Nat → List StoreOp × Option String
  | 0 => ([], none)
  | k + 1 =>
    match st.appendErr i with
    | some e => ([StoreOp.append i], some e)
    | none =>
      let rest := appendRows st (i + 1) k
      (StoreOp.append i :: rest.1, rest.2)

/-- The INSERT statement prepared by InsertMetrics. -/
def insertMetricsSQL : String :=
  "\n\t\tINSERT INTO otel_metrics (\n\t\t\ttimestamp, metric_name, metric_type, value,\n\t\t\tservice_name, service_namespace, service_instance_id, deployment_environment,\n\t\t\tattributes, resource_attributes,\n\t\t\tbucket_counts, explicit_bounds,\n\t\t\tinstrumentation_scope_name, instrumentation_scope_version\n\t\t)\n\t"

/-- The INSERT statement prepared by InsertLogs. -/
def insertLogsSQL : String :=
  "\n\t\tINSERT INTO otel_logs (\n\t\t\ttimestamp, observed_timestamp, severity_number, severity_text,\n\t\t\tbody, body_type,\n\t\t\tservice_name, service_namespace, service_instance_id, deployment_environment, host_name,\n\t\t\ttrace_id, span_id, trace_flags,\n\t\t\tattributes, resource_attributes,\n\t\t\tinstrumentation_scope_name, instrumentation_scope_version\n\t\t)\n\t"

/-- The INSERT statement prepared by InsertSpans. -/
def insertSpansSQL : String :=
  "\n\t\tINSERT INTO otel_traces (\n\t\t\ttimestamp, trace_id, span_id, parent_span_id,\n\t\t\tspan_name, span_kind, start_time, end_time, duration_ns,\n\t\t\tstatus_code, status_message,\n\t\t\tservice_name, service_namespace, service_instance_id, deployment_environment,\n\t\t\tattributes, resource_attributes,\n\t\t\tevents, links,\n\t\t\tinstrumentation_scope_name, instrumentation_scope_version\n\t\t)\n\t"

/-- Client.InsertMetrics: an empty batch returns nil at once; otherwise
PrepareBatch, then Append per row in input order stopping at the first
failure, then Send. -/
def insertMetrics (st : StoreConn) (metrics : List Metric) :
    Except String Unit × List StoreOp :=
  if metrics.length = 0 then (Except.ok (), [])
  else
    match st.prepareErr with
    | some e => (Except.error ("failed to prepare batch: " ++ e), [StoreOp.prepareBatch insertMetricsSQL])
    | none =>
      let a := appendRows st 0 metrics.length
      match a.2 with
      | some e => (Except.error ("failed to append metric: " ++ e), StoreOp.prepareBatch insertMetricsSQL :: a.1)
      | none =>
        match st.sendErr with
        | some e => (Except.error ("failed to send batch: " ++ e), StoreOp.prepareBatch insertMetricsSQL :: a.1 ++ [StoreOp.send])
        | none => (Except.ok (), StoreOp.prepareBatch insertMetricsSQL :: a.1 ++ [StoreOp.send])

/-- Client.InsertLogs: same control flow as InsertMetrics over the
otel_logs statement. -/
def insertLogs (st : StoreConn) (logs : List LogRecord) :
    Except String Unit × List StoreOp :=
  if logs.length = 0 then (Except.ok (), [])
  else
    match st.prepareErr with
    | some e => (Except.error ("failed to prepare batch: " ++ e), [StoreOp.prepareBatch insertLogsSQL])
    | none =>
      let a := appendRows st 0 logs.length
      match a.2 with
      | some e => (Except.error ("failed to append log: " ++ e), StoreOp.prepareBatch insertLogsSQL :: a.1)
      | none =>
        match st.sendErr with
        | some e => (Except.error ("failed to send batch: " ++ e), StoreOp.prepareBatch insertLogsSQL :: a.1 ++ [StoreOp.send])
        | none => (Except.ok (), StoreOp.prepareBatch insertLogsSQL :: a.1 ++ [StoreOp.send])

/-- Client.InsertSpans: same control flow as InsertMetrics over the
otel_traces statement; the per-row event and link tuple conversions do
not affect control flow. -/
def insertSpans (st : StoreConn) (spans : List Span) :
    Except String Unit × List StoreOp :=
  if spans.length = 0 then (Except.ok (), [])
  else
    match st.prepareErr with
    | some e => (Except.error ("failed to prepare batch: " ++ e), [StoreOp.prepareBatch insertSpansSQL])
    | none =>
      let a := appendRows st 0 spans.length
      match a.2 with
      | some e => (Except.error ("failed to append span: " ++ e), StoreOp.prepareBatch insertSpansSQL :: a.1)
      | none =>
        match st.sendErr with
        | some e => (Except.error ("failed to send batch: " ++ e), StoreOp.prepareBatch insertSpansSQL :: a.1 ++ [StoreOp.send])
        | none => (Except.ok (), StoreOp.prepareBatch insertSpansSQL :: a.1 ++ [StoreOp.send])

/-! ## Batch worker flush (processSpans of the collector) -/

/-- Observable outcome of one invocation of the flush closure of
processSpans: how many times InsertSpans was called, the results of
those calls in order, the batch contents after the flush, how much any
write-failure counter was incremented, and the backoff sleeps
performed. -/
structure FlushOutcome where
  insertCalls : Nat
  results : List (Except String Unit)
  batchAfter : List Span
  writeFailureCounterInc : Nat
  backoffWaitsMs : List Nat

/-- The flush closure of processSpans: an empty accumulator returns at
once; otherwise InsertSpans is called exactly once, an error is only
logged, and the accumulator is reset unconditionally.  No retry, no
backoff sleep, and no counter update occur in the Go body. -/
def flushSpans (st : StoreConn) (batch : List Span) : FlushOutcome :=
  if batch.length = 0 then
    { insertCalls := 0, results := [], batchAfter := batch,
      writeFailureCounterInc := 0, backoffWaitsMs := [] }
  else
    { insertCalls := 1, results := [(insertSpans st batch).1], batchAfter := [],
      writeFailureCounterInc := 0, backoffWaitsMs := [] }

/-! ## Configuration defaults (internal/config DefaultConfig) -/

/-- config.PerformanceConfig; durations are nanosecond counts. -/
structure PerformanceConfig where
  BatchSize : Nat
  BatchTimeout : Nat
  MaxBatchBytes : Nat
  WorkerCount : Nat
  QueueSize : Nat
  MemoryLimitMiB : Nat
  MemorySpikeLimit : Nat
  RetryMaxAttempts : Nat
  RetryInitialInterval : Nat
  RetryMaxInterval : Nat
  CacheTTL : Nat

/-- The Performance section of config.DefaultConfig. -/
def defaultPerformance : PerformanceConfig :=
  { BatchSize := 10000
    BatchTimeout := 10 * 1000000000
    MaxBatchBytes := 100 * 1024 * 1024
    WorkerCount := 4
    QueueSize := 100000
    MemoryLimitMiB := 3200
    MemorySpikeLimit := 800
    RetryMaxAttempts := 5
    RetryInitialInterval := 1 * 1000000000
    RetryMaxInterval := 30 * 1000000000
    CacheTTL := 15 * 60 * 1000000000 }

/-! ## Query router (cmd/query/main.go)

Request envelopes keep the Go field types: absent JSON fields decode to
the Go zero value (empty string, zero time, zero int).  time.Time
values are modelled by their Unix nanosecond count; the zero time is
modelled by 0, matching the IsZero checks.  Only the generated SQL text
is modelled; arguments are bound to the placeholder marks. -/

/-- TraceQueryRequest of the query service. -/
structure TraceQueryRequest where
  TraceID : String
  ServiceName : String
  StartTime : Nat
  EndTime : Nat
  MinDuration : Int
  MaxDuration : Int
  Limit : Int

/-- MetricsQueryRequest of the query service. -/
structure MetricsQueryRequest where
  MetricName : String
  ServiceName : String
  StartTime : Nat
  EndTime : Nat
  Aggregation : String
  Step : String

/-- LogsQueryRequest of the query service. -/
structure LogsQueryRequest where
  ServiceName : String
  StartTime : Nat
  EndTime : Nat
  Severity : String
  SearchText : String
  TraceID : String
  Limit : Int

/-- The default applied by QueryTraces: a zero limit becomes 100. -/
def tracesEffectiveLimit (req : TraceQueryRequest) : Int :=
  if req.Limit = 0 then 100 else req.Limit

/-- The base SELECT of QueryTraces (the Go raw string literal). -/
def tracesBaseSQL : String :=
  "\n\t\tSELECT\n\t\t\ttrace_id, span_id, parent_span_id, span_name, span_kind,\n\t\t\tstart_time, end_time, duration_ns,\n\t\t\tstatus_code, status_message, service_name, attributes\n\t\tFROM otel_traces\n\t\tWHERE 1=1\n\t"

/-- The SQL text generated by QueryTraces: optional filters are accreted
onto the base statement, then the ORDER BY and LIMIT suffix is appended
with the effective limit. -/
def queryTracesSQL (req : TraceQueryRequest) : String :=
  let q := tracesBaseSQL
  let q := if req.TraceID ≠ "" then q ++ " AND trace_id = ?" else q
  let q := if req.ServiceName ≠ "" then q ++ " AND service_name = ?" else q
  let q := if req.StartTime ≠ 0 then q ++ " AND timestamp >= ?" else q
  let q := if req.EndTime ≠ 0 then q ++ " AND timestamp <= ?" else q
  let q := if req.MinDuration > 0 then q ++ " AND duration_ns >= ?" else q
  let q := if req.MaxDuration > 0 then q ++ " AND duration_ns <= ?" else q
  q ++ (" ORDER BY timestamp DESC LIMIT " ++ toString (tracesEffectiveLimit req))

/-- The default applied by QueryMetrics: an empty aggregation becomes
avg. -/
def metricsEffectiveAggregation (req : MetricsQueryRequest) : String :=
  if req.Aggregation = "" then "avg" else req.Aggregation

/-- Nanoseconds per day, as the Go expression 24 multiplied by
time.Hour. -/
def dayNs : Int := 24 * 3600 * 1000000000

/-- The table selection of QueryMetrics: time.Since of the request
start, compared against 90 and 30 days.  nowNs is the current clock
reading in Unix nanoseconds. -/
def selectMetricsTable (nowNs : Nat) (startTime : Nat) : String :=
  if (nowNs : Int) - (startTime : Int) > 90 * dayNs then "otel_metrics_1h"
  else if (nowNs : Int) - (startTime : Int) > 30 * dayNs then "otel_metrics_5m"
  else "otel_metrics"

/-- The aggregation rewrite of QueryMetrics: over a rollup table the
four known aggregations move onto the pre-aggregated columns (the Go
switch has no default case, so any other string is kept unchanged);
over the raw table the aggregation is applied to the value column. -/
def metricsAggFunc (tableName agg : String) : String :=
  if tableName ≠ "otel_metrics" then
    if agg = "avg" then "avg(value_avg)"
    else if agg = "min" then "min(value_min)"
    else if agg = "max" then "max(value_max)"
    else if agg = "sum" then "sum(value_sum)"
    else agg
  else agg ++ "(value)"

/-- The SQL text generated by QueryMetrics for the clock reading
nowNs. -/
def queryMetricsSQL (nowNs : Nat) (req : MetricsQueryRequest) : String :=
  let agg := metricsEffectiveAggregation req
  let tableName := selectMetricsTable nowNs req.StartTime
  let aggFunc := metricsAggFunc tableName agg
  let q := "\n\t\tSELECT\n\t\t\ttoStartOfInterval(timestamp, INTERVAL 5 MINUTE) as ts,\n\t\t\t"
    ++ aggFunc
    ++ (" as value\n\t\tFROM "
    ++ tableName
    ++ "\n\t\tWHERE metric_name = ?\n\t\t  AND timestamp >= ?\n\t\t  AND timestamp <= ?\n\t")
  let q := if req.ServiceName ≠ "" then q ++ " AND service_name = ?" else q
  q ++ " GROUP BY ts ORDER BY ts"

/-- The default applied by QueryLogs: a zero limit becomes 100. -/
def logsEffectiveLimit (req : LogsQueryRequest) : Int :=
  if req.Limit = 0 then 100 else req.Limit

/-- The base SELECT of QueryLogs (the Go raw string literal). -/
def logsBaseSQL : String :=
  "\n\t\tSELECT\n\t\t\ttimestamp, severity_text, body, service_name,\n\t\t\ttrace_id, span_id, attributes\n\t\tFROM otel_logs\n\t\tWHERE timestamp >= ?\n\t\t  AND timestamp <= ?\n\t"

/-- The SQL text generated by QueryLogs. -/
def queryLogsSQL (req : LogsQueryRequest) : String :=
  let q := logsBaseSQL
  let q := if req.ServiceName ≠ "" then q ++ " AND service_name = ?" else q
  let q := if req.Severity ≠ "" then q ++ " AND severity_text = ?" else q
  let q := if req.TraceID ≠ "" then q ++ " AND trace_id = ?" else q
  let q := if req.SearchText ≠ "" then q ++ " AND body LIKE ?" else q
  q ++ (" ORDER BY timestamp DESC LIMIT " ++ toString (logsEffectiveLimit req))

/-! ## Concrete inputs used by witnesses and counterexamples -/

/-- The span of the specification round-trip scenario: ids 01..10 and
01..08, a 100 millisecond duration, status ok, kind server. -/
def exSpan : OtlpSpan :=
  { TraceId := [1, 2, 3, 4, 5, 6, 7, 8, 9, 10, 11, 12, 13, 14, 15, 16]
    SpanId := [1, 2, 3, 4, 5, 6, 7, 8]
    ParentSpanId := []
    Name := "GET /api/users"
    Kind := SpanKind.server
    StartTimeUnixNano := 1000
    EndTimeUnixNano := 100001000
    Status := some { Code := StatusCode.ok, Message := "" }
    Attributes := [] }

/-- The row the collector decodes from exSpan. -/
def exSpanRow : Span := decodeSpan "" "" "" "" exSpan

/-- A resource carrying a service name and a host name. -/
def checkoutResource : Resource :=
  { Attributes := [("service.name", "checkout"), ("host.name", "node-1")] }

/-- A one-span export request under checkoutResource. -/
def rsCheckout : ResourceSpans :=
  { Resource := checkoutResource, ScopeSpans := [{ Spans := [exSpan] }] }

/-- A concrete OTLP log record. -/
def exLogRecord : OtlpLogRecord :=
  { TimeUnixNano := 1000
    ObservedTimeUnixNano := 1100
    SeverityNumber := 17
    SeverityText := "ERROR"
    BodyStringValue := some "Connection timeout"
    TraceId := [1, 2, 3, 4, 5, 6, 7, 8, 9, 10, 11, 12, 13, 14, 15, 16]
    SpanId := [1, 2, 3, 4, 5, 6, 7, 8]
    Flags := 1
    Attributes := [] }

/-- A one-record logs export request under checkoutResource. -/
def rlCheckout : ResourceLogs :=
  { Resource := checkoutResource, ScopeLogs := [{ LogRecords := [exLogRecord] }] }

/-- A metrics export request with exactly one data point. -/
def rmGauge : ResourceMetrics :=
  { Resource := checkoutResource
    ScopeMetrics :=
      [{ Metrics := [{ Name := "cpu_usage", DataPoints := [{ TimeUnixNano := 1000, ValueBits := 0 }] }] }] }

/-- A concrete metric row. -/
def exMetricRow : Metric :=
  { Timestamp := 1000, MetricName := "cpu_usage", MetricType := "gauge", ValueBits := 0,
    ServiceName := "", ServiceNamespace := "", ServiceInstanceID := "",
    DeploymentEnvironment := "", Attributes := [], ResourceAttributes := [],
    BucketCounts := [], ExplicitBounds := [],
    InstrumentationScopeName := "", InstrumentationScopeVersion := "" }

/-- A concrete log row. -/
def exLogRow : LogRecord :=
  { Timestamp := 1000, ObservedTimestamp := 1100, SeverityNumber := 17,
    SeverityText := "ERROR", Body := "Connection timeout", BodyType := "string",
    ServiceName := "", ServiceNamespace := "", ServiceInstanceID := "",
    DeploymentEnvironment := "", HostName := "", TraceID := "", SpanID := "",
    TraceFlags := 1, Attributes := [], ResourceAttributes := [],
    InstrumentationScopeName := "", InstrumentationScopeVersion := "" }

/-- A driver oracle whose Send fails with a transient transport error. -/
def sendFailStore : StoreConn :=
  { prepareErr := none, appendErr := fun _ => none, sendErr := some "connection lost" }

/-- A driver oracle whose Append fails at row index 1. -/
def appendFailStore : StoreConn :=
  { prepareErr := none, appendErr := fun i => if i = 1 then some "bad value" else none,
    sendErr := none }

/-- A driver oracle on which every call succeeds. -/
def okStore : StoreConn :=
  { prepareErr := none, appendErr := fun _ => none, sendErr := none }

/-- The span_kind Enum8 values of the otel_traces schema. -/
def otelTracesSpanKindEnum : List String :=
  ["internal", "server", "client", "producer", "consumer"]

/-- The status_code Enum8 values of the otel_traces schema. -/
def otelTracesStatusCodeEnum : List String := ["unset", "ok", "error"]

/-- A trace query request with every optional field absent. -/
def treqDefault : TraceQueryRequest :=
  { TraceID := "", ServiceName := "", StartTime := 0, EndTime := 0,
    MinDuration := 0, MaxDuration := 0, Limit := 0 }

/-- A logs query request with only the time window set. -/
def lreqDefault : LogsQueryRequest :=
  { ServiceName := "", StartTime := 1000, EndTime := 2000,
    Severity := "", SearchText := "", TraceID := "", Limit := 0 }

/-- A metrics query request with the aggregation field absent. -/
def mreqDefault : MetricsQueryRequest :=
  { MetricName := "cpu_usage", ServiceName := "", StartTime := 0, EndTime := 0,
    Aggregation := "", Step := "" }

/-- 45 days in nanoseconds, used as a clock reading. -/
def now45 : Nat := 45 * 86400 * 1000000000

/-- A metrics query request whose start time lies 45 days before the
clock reading now45. -/
def mreq45 : MetricsQueryRequest :=
  { MetricName := "cpu_usage", ServiceName := "", StartTime := 0, EndTime := now45,
    Aggregation := "avg", Step := "" }

/-! ## Helper lemmas -/

theorem flatMap_byteHex_length (bs : List Nat) : (bs.flatMap byteHex).length = 2 * bs.length := by
  induction bs with
  | nil => rfl
  | cons b tl ih => simp only [List.flatMap_cons, List.length_append, ih, byteHex]; simp; omega

theorem hexEncode_length (bs : List Nat) : (hexEncode bs).length = 2 * bs.length :=
  flatMap_byteHex_length bs

theorem isLowerHexDigit_hexDigit (n : Nat) : isLowerHexDigit (hexDigit n) = true := by
  unfold hexDigit
  by_cases h : n < 16
  · interval_cases n <;> decide
  · have hlen : lowerHex.data.length = 16 := by decide
    rw [List.getD_eq_default _ _ (by rw [hlen]; omega)]
    decide

theorem hexEncode_mem_hex (bs : List Nat) :
    ∀ c ∈ (hexEncode bs).data, isLowerHexDigit c = true := by
  intro c hc
  have hc2 : c ∈ bs.flatMap byteHex := hc
  obtain ⟨b, _, hcb⟩ := List.mem_flatMap.mp hc2
  simp only [byteHex, List.mem_cons, List.not_mem_nil, or_false] at hcb
  rcases hcb with h | h <;> subst h <;> exact isLowerHexDigit_hexDigit _

theorem hexEncode_eq_empty_iff (bs : List Nat) : hexEncode bs = "" ↔ bs = [] := by
  constructor
  · intro h
    cases bs with
    | nil => rfl
    | cons b tl =>
      have hlen := congrArg String.length h
      rw [hexEncode_length] at hlen
      simp at hlen
  · intro h
    subst h
    rfl

theorem u64Sub_eq (a b : Nat) (hb : b ≤ a) (ha : a < u64Mod) : u64Sub a b = a - b := by
  have hm : u64Mod = 18446744073709551616 := by norm_num [u64Mod]
  unfold u64Sub
  rw [hm] at ha ⊢
  omega

theorem appendRows_ok (st : StoreConn) :
    ∀ (k i : Nat), (∀ j, j < k → st.appendErr (i + j) = none) →
      appendRows st i k = ((List.range' i k).map StoreOp.append, none) := by
  intro k
  induction k with
  | zero => intro i _; rfl
  | succ k ih =>
    intro i h
    have h0 : st.appendErr i = none := by simpa using h 0 (Nat.succ_pos k)
    have hrest : ∀ j, j < k → st.appendErr (i + 1 + j) = none := by
      intro j hj
      rw [show i + 1 + j = i + (j + 1) by omega]
      exact h (j + 1) (by omega)
    simp [appendRows, h0, ih (i + 1) hrest, List.range'_succ]

theorem appendRows_no_send (st : StoreConn) :
    ∀ (k i : Nat), StoreOp.send ∉ (appendRows st i k).1 := by
  intro k
  induction k with
  | zero => intro i; simp [appendRows]
  | succ k ih =>
    intro i
    unfold appendRows
    cases h : st.appendErr i with
    | some e => simp
    | none => simpa using ih (i + 1)

theorem appendRows_err (st : StoreConn) :
    ∀ (k i : Nat), (∃ j, j < k ∧ st.appendErr (i + j) ≠ none) →
      (appendRows st i k).2 ≠ none := by
  intro k
  induction k with
  | zero =>
    intro i hj
    obtain ⟨j, hj, _⟩ := hj
    omega
  | succ k ih =>
    intro i hj
    obtain ⟨j, hjk, hne⟩ := hj
    unfold appendRows
    cases h : st.appendErr i with
    | some e => simp
    | none =>
      have hjpos : j ≠ 0 := by
        intro h0
        subst h0
        simp at hne
        exact hne h
      simp only []
      refine ih (i + 1) ⟨j - 1, by omega, ?_⟩
      rw [show i + 1 + (j - 1) = i + j by omega]
      exact hne

/-! ## Claim theorems -/

/-- C2 exhibit: the trace Export handler renders the span kind and the
status code with the String() method of the generated protobuf enums,
which yields the upper-case protobuf value names, not the lowercase
names of the Enum8 columns of the otel_traces schema; at the concrete
span with kind server and status ok the decoded row carries
SPAN_KIND_SERVER and STATUS_CODE_OK, neither of which is an admissible
Enum8 value of the store. -/
theorem traceExport_enum_rendering_mismatch :
    (decodeSpan "" "" "" "" exSpan).SpanKind = "SPAN_KIND_SERVER"
  ∧ (decodeSpan "" "" "" "" exSpan).StatusCode = "STATUS_CODE_OK"
  ∧ (otelTracesSpanKindEnum.contains "SPAN_KIND_SERVER") = false
  ∧ (otelTracesStatusCodeEnum.contains "STATUS_CODE_OK") = false
  ∧ (("SPAN_KIND_SERVER" == "server") = false)
  ∧ (("STATUS_CODE_OK" == "ok") = false) := by
  refine ⟨rfl, rfl, by decide, by decide, by decide, by decide⟩

/-- C3 exhibit: extractStringAttribute is a stub returning the empty
string for every resource and key, so a resource carrying the attribute
service.name with value checkout decodes to rows whose ServiceName and
HostName are empty rather than the attribute values. -/
theorem traceExport_service_identity_stub :
    extractStringAttribute checkoutResource "service.name" = ""
  ∧ (traceExport [rsCheckout]).map Span.ServiceName = [""]
  ∧ (logsExport [rlCheckout]).map LogRecord.ServiceName = [""]
  ∧ (logsExport [rlCheckout]).map LogRecord.HostName = [""]
  ∧ (("" == "checkout") = false) := by
  refine ⟨rfl, rfl, rfl, rfl, by decide⟩

/-- C4 exhibit: the metrics Export handler constructs no Metric record
for any request: the enqueued list is empty for every input, although a
concrete request carries one data point (and the per-scope received
counter is incremented once for it). -/
theorem metricsExport_discards_data_points :
    (∀ req : List ResourceMetrics, (metricsExport req).enqueued = [])
  ∧ otlpDataPointCount [rmGauge] = 1
  ∧ (metricsExport [rmGauge]).enqueued.length = 0
  ∧ (metricsExport [rmGauge]).receivedCounterInc = 1 := by
  refine ⟨fun _ => rfl, by decide, rfl, by decide⟩

/-- C5 exhibit: the flush closure of processSpans calls InsertSpans
exactly once on a non-empty batch; on a transient send failure it
performs no backoff sleep, increments no write-failure counter, and
unconditionally discards the batch, although the configuration default
for retry_max_attempts is 5. -/
theorem flushSpans_single_attempt_no_retry :
    (flushSpans sendFailStore [exSpanRow]).insertCalls = 1
  ∧ (flushSpans sendFailStore [exSpanRow]).results =
      [Except.error "failed to send batch: connection lost"]
  ∧ (flushSpans sendFailStore [exSpanRow]).batchAfter = []
  ∧ (flushSpans sendFailStore [exSpanRow]).writeFailureCounterInc = 0
  ∧ (flushSpans sendFailStore [exSpanRow]).backoffWaitsMs = []
  ∧ defaultPerformance.RetryMaxAttempts = 5 := by
  refine ⟨rfl, rfl, rfl, rfl, rfl, rfl⟩

/-- C6 counterexample: when the queue stays full, the hand-off abandons
the record but increments no drop counter; the increment is zero, not
one, for both the span and the log hand-off. -/
theorem spanHandOff_no_drop_counter_increment :
    (spanHandOff true).enqueued = false
  ∧ (spanHandOff true).dropCounterInc = 0
  ∧ (((spanHandOff true).dropCounterInc == 1) = false)
  ∧ (logHandOff true).dropCounterInc = 0 := by decide

/-- C6 amended: a producer hand-off waits at most the fixed 100
millisecond timeout; on timeout the record is dropped and a warning is
logged, no drop counter is incremented (the monitoring package defines
none), and no error reaches the transport handler; on an accepted
record the received counter for the signal is incremented. -/
theorem handOff_timeout_drops_without_counter :
    ((spanHandOff true).waitMsBound = 100 ∧ (spanHandOff true).enqueued = false
      ∧ (spanHandOff true).warningLogged = true ∧ (spanHandOff true).dropCounterInc = 0
      ∧ (spanHandOff true).transportError = false)
  ∧ ((logHandOff true).waitMsBound = 100 ∧ (logHandOff true).enqueued = false
      ∧ (logHandOff true).warningLogged = true ∧ (logHandOff true).dropCounterInc = 0
      ∧ (logHandOff true).transportError = false)
  ∧ ((spanHandOff false).enqueued = true ∧ (spanHandOff false).receivedCounterInc = 1
      ∧ (spanHandOff false).transportError = false)
  ∧ ((logHandOff false).enqueued = true ∧ (logHandOff false).receivedCounterInc = 1
      ∧ (logHandOff false).transportError = false) := by decide

/-- C8: each of the three insert operations, applied to an empty batch,
returns success at once and makes no driver call at all, for every
driver oracle. -/
theorem insert_empty_batch_is_noop :
    ∀ st : StoreConn,
      insertMetrics st [] = (Except.ok (), [])
      ∧ insertLogs st [] = (Except.ok (), [])
      ∧ insertSpans st [] = (Except.ok (), []) :=
  fun _ => ⟨rfl, rfl, rfl⟩

/-- C7: for a span with a 16-byte trace id, an 8-byte span id, an end
stamp not below the start stamp and below the uint64 modulus, the
decoded row has DurationNs equal to the stamp difference, a 32
character lowercase hex trace id, a 16 character lowercase hex span id,
and an empty parent id string exactly when the raw parent id is
empty. -/
theorem decodeSpan_id_and_duration_invariants
    (sn ns iid env : String) (s : OtlpSpan)
    (ht : s.TraceId.length = 16) (hsp : s.SpanId.length = 8)
    (hse : s.StartTimeUnixNano ≤ s.EndTimeUnixNano)
    (hlt : s.EndTimeUnixNano < u64Mod) :
    (decodeSpan sn ns iid env s).DurationNs = s.EndTimeUnixNano - s.StartTimeUnixNano
  ∧ (decodeSpan sn ns iid env s).TraceID.length = 32
  ∧ (∀ c ∈ (decodeSpan sn ns iid env s).TraceID.data, isLowerHexDigit c = true)
  ∧ (decodeSpan sn ns iid env s).SpanID.length = 16
  ∧ (∀ c ∈ (decodeSpan sn ns iid env s).SpanID.data, isLowerHexDigit c = true)
  ∧ ((decodeSpan sn ns iid env s).ParentSpanID = "" ↔ s.ParentSpanId = []) := by
  refine ⟨u64Sub_eq _ _ hse hlt, ?_, hexEncode_mem_hex _, ?_, hexEncode_mem_hex _,
    hexEncode_eq_empty_iff _⟩
  · show (hexEncode s.TraceId).length = 32
    rw [hexEncode_length, ht]
  · show (hexEncode s.SpanId).length = 16
    rw [hexEncode_length, hsp]

/-- C7 witness: the invariants evaluated at the concrete scenario span,
whose hypotheses hold by computation. -/
theorem decodeSpan_id_and_duration_invariants_witness :
    exSpan.TraceId.length = 16
  ∧ exSpan.SpanId.length = 8
  ∧ exSpan.StartTimeUnixNano ≤ exSpan.EndTimeUnixNano
  ∧ exSpan.EndTimeUnixNano < u64Mod
  ∧ ((decodeSpan "" "" "" "" exSpan).DurationNs
        = exSpan.EndTimeUnixNano - exSpan.StartTimeUnixNano
      ∧ (decodeSpan "" "" "" "" exSpan).TraceID.length = 32
      ∧ (∀ c ∈ (decodeSpan "" "" "" "" exSpan).TraceID.data, isLowerHexDigit c = true)
      ∧ (decodeSpan "" "" "" "" exSpan).SpanID.length = 16
      ∧ (∀ c ∈ (decodeSpan "" "" "" "" exSpan).SpanID.data, isLowerHexDigit c = true)
      ∧ ((decodeSpan "" "" "" "" exSpan).ParentSpanID = "" ↔ exSpan.ParentSpanId = [])) :=
  ⟨by decide, by decide, by decide, by decide,
    decodeSpan_id_and_duration_invariants "" "" "" "" exSpan
      (by decide) (by decide) (by decide) (by decide)⟩

/-- C9: with the optional fields absent (zero limit, empty
aggregation), QueryTraces and QueryLogs generate SQL ending in the
descending timestamp order clause with LIMIT 100, and QueryMetrics uses
the aggregation avg. -/
theorem query_defaults_limit_and_aggregation
    (treq : TraceQueryRequest) (lreq : LogsQueryRequest) (mreq : MetricsQueryRequest)
    (ht : treq.Limit = 0) (hl : lreq.Limit = 0) (hm : mreq.Aggregation = "") :
    (∃ p, queryTracesSQL treq = p ++ " ORDER BY timestamp DESC LIMIT 100")
  ∧ (∃ p, queryLogsSQL lreq = p ++ " ORDER BY timestamp DESC LIMIT 100")
  ∧ metricsEffectiveAggregation mreq = "avg" := by
  have htail : (" ORDER BY timestamp DESC LIMIT " ++ toString (tracesEffectiveLimit treq))
      = " ORDER BY timestamp DESC LIMIT 100" := by
    simp only [tracesEffectiveLimit, ht, if_pos]
    decide
  have ltail : (" ORDER BY timestamp DESC LIMIT " ++ toString (logsEffectiveLimit lreq))
      = " ORDER BY timestamp DESC LIMIT 100" := by
    simp only [logsEffectiveLimit, hl, if_pos]
    decide
  refine ⟨?_, ?_, by simp [metricsEffectiveAggregation, hm]⟩
  · simp only [queryTracesSQL]
    rw [htail]
    exact ⟨_, rfl⟩
  · simp only [queryLogsSQL]
    rw [ltail]
    exact ⟨_, rfl⟩

/-- C9 witness: the defaults at concrete requests whose optional fields
are absent. -/
theorem query_defaults_limit_and_aggregation_witness :
    (∃ p, queryTracesSQL treqDefault = p ++ " ORDER BY timestamp DESC LIMIT 100")
  ∧ (∃ p, queryLogsSQL lreqDefault = p ++ " ORDER BY timestamp DESC LIMIT 100")
  ∧ metricsEffectiveAggregation mreqDefault = "avg" :=
  query_defaults_limit_and_aggregation treqDefault lreqDefault mreqDefault rfl rfl rfl

/-- C10: for a non-empty batch with a successful prepare, each insert
operation either appends every row in input order and submits exactly
once, or — when some Append fails — returns an error with Send never
called, so a batch with a failing row is never submitted. -/
theorem insert_append_failure_never_sends (st : StoreConn)
    (spans : List Span) (metrics : List Metric) (logs : List LogRecord)
    (hs : spans ≠ []) (hm : metrics ≠ []) (hl : logs ≠ [])
    (hp : st.prepareErr = none) :
    (((∀ i, i < spans.length → st.appendErr i = none) →
        (insertSpans st spans).2 =
          StoreOp.prepareBatch insertSpansSQL
            :: (List.range spans.length).map StoreOp.append ++ [StoreOp.send])
      ∧ ((∃ i, i < spans.length ∧ st.appendErr i ≠ none) →
        (∃ e, (insertSpans st spans).1 = Except.error e)
          ∧ StoreOp.send ∉ (insertSpans st spans).2))
  ∧ (((∀ i, i < metrics.length → st.appendErr i = none) →
        (insertMetrics st metrics).2 =
          StoreOp.prepareBatch insertMetricsSQL
            :: (List.range metrics.length).map StoreOp.append ++ [StoreOp.send])
      ∧ ((∃ i, i < metrics.length ∧ st.appendErr i ≠ none) →
        (∃ e, (insertMetrics st metrics).1 = Except.error e)
          ∧ StoreOp.send ∉ (insertMetrics st metrics).2))
  ∧ (((∀ i, i < logs.length → st.appendErr i = none) →
        (insertLogs st logs).2 =
          StoreOp.prepareBatch insertLogsSQL
            :: (List.range logs.length).map StoreOp.append ++ [StoreOp.send])
      ∧ ((∃ i, i < logs.length ∧ st.appendErr i ≠ none) →
        (∃ e, (insertLogs st logs).1 = Except.error e)
          ∧ StoreOp.send ∉ (insertLogs st logs).2)) := by
  have hslen : spans.length ≠ 0 := by simpa [List.length_eq_zero] using hs
  have hmlen : metrics.length ≠ 0 := by simpa [List.length_eq_zero] using hm
  have hllen : logs.length ≠ 0 := by simpa [List.length_eq_zero] using hl
  refine ⟨⟨?_, ?_⟩, ⟨?_, ?_⟩, ⟨?_, ?_⟩⟩
  · intro hall
    have ha := appendRows_ok st spans.length 0 (fun j hj => by simpa using hall j hj)
    simp only [insertSpans, hslen, hp, ha, List.range_eq_range']
    cases hsend : st.sendErr <;> simp
  · intro hex
    obtain ⟨i, hi, hne⟩ := hex
    have ha := appendRows_err st spans.length 0 ⟨i, hi, by simpa using hne⟩
    cases he : (appendRows st 0 spans.length).2 with
    | none => exact absurd he ha
    | some e =>
      constructor
      · exact ⟨"failed to append span: " ++ e, by simp [insertSpans, hslen, hp, he]⟩
      · simp [insertSpans, hslen, hp, he, appendRows_no_send st spans.length 0]
  · intro hall
    have ha := appendRows_ok st metrics.length 0 (fun j hj => by simpa using hall j hj)
    simp only [insertMetrics, hmlen, hp, ha, List.range_eq_range']
    cases hsend : st.sendErr <;> simp
  · intro hex
    obtain ⟨i, hi, hne⟩ := hex
    have ha := appendRows_err st metrics.length 0 ⟨i, hi, by simpa using hne⟩
    cases he : (appendRows st 0 metrics.length).2 with
    | none => exact absurd he ha
    | some e =>
      constructor
      · exact ⟨"failed to append metric: " ++ e, by simp [insertMetrics, hmlen, hp, he]⟩
      · simp [insertMetrics, hmlen, hp, he, appendRows_no_send st metrics.length 0]
  · intro hall
    have ha := appendRows_ok st logs.length 0 (fun j hj => by simpa using hall j hj)
    simp only [insertLogs, hllen, hp, ha, List.range_eq_range']
    cases hsend : st.sendErr <;> simp
  · intro hex
    obtain ⟨i, hi, hne⟩ := hex
    have ha := appendRows_err st logs.length 0 ⟨i, hi, by simpa using hne⟩
    cases he : (appendRows st 0 logs.length).2 with
    | none => exact absurd he ha
    | some e =>
      constructor
      · exact ⟨"failed to append log: " ++ e, by simp [insertLogs, hllen, hp, he]⟩
      · simp [insertLogs, hllen, hp, he, appendRows_no_send st logs.length 0]

/-- C10 witness: on a two-row span batch whose second Append fails, the
insert returns an error and Send is never called. -/
theorem insert_append_failure_never_sends_witness :
    (∃ e, (insertSpans appendFailStore [exSpanRow, exSpanRow]).1 = Except.error e)
  ∧ StoreOp.send ∉ (insertSpans appendFailStore [exSpanRow, exSpanRow]).2 :=
  (insert_append_failure_never_sends appendFailStore
      [exSpanRow, exSpanRow] [exMetricRow] [exLogRow]
      (List.cons_ne_nil _ _) (List.cons_ne_nil _ _) (List.cons_ne_nil _ _) rfl).1.2
    ⟨1, by decide, by decide⟩

theorem selectMetricsTable_eq_raw_iff (nowNs startTime : Nat) :
    selectMetricsTable nowNs startTime = "otel_metrics"
      ↔ (nowNs : Int) - (startTime : Int) ≤ 30 * dayNs := by
  unfold selectMetricsTable
  by_cases h90 : (nowNs : Int) - (startTime : Int) > 90 * dayNs
  · rw [if_pos h90]
    constructor
    · intro h
      exact absurd h (by decide)
    · intro h
      exfalso
      have hlt : (30 : Int) * dayNs < 90 * dayNs := by norm_num [dayNs]
      linarith
  · rw [if_neg h90]
    by_cases h30 : (nowNs : Int) - (startTime : Int) > 30 * dayNs
    · rw [if_pos h30]
      constructor
      · intro h
        exact absurd h (by decide)
      · intro h
        linarith
    · rw [if_neg h30]
      constructor
      · intro _
        linarith
      · intro _
        rfl

theorem selectMetricsTable_eq_5m_iff (nowNs startTime : Nat) :
    selectMetricsTable nowNs startTime = "otel_metrics_5m"
      ↔ (30 * dayNs < (nowNs : Int) - (startTime : Int)
          ∧ (nowNs : Int) - (startTime : Int) ≤ 90 * dayNs) := by
  unfold selectMetricsTable
  by_cases h90 : (nowNs : Int) - (startTime : Int) > 90 * dayNs
  · rw [if_pos h90]
    constructor
    · intro h
      exact absurd h (by decide)
    · intro h
      linarith [h.2]
  · rw [if_neg h90]
    by_cases h30 : (nowNs : Int) - (startTime : Int) > 30 * dayNs
    · rw [if_pos h30]
      exact ⟨fun _ => ⟨h30, by linarith⟩, fun _ => rfl⟩
    · rw [if_neg h30]
      constructor
      · intro h
        exact absurd h (by decide)
      · intro h
        exact absurd h.1 h30
  
theorem selectMetricsTable_eq_1h_iff (nowNs startTime : Nat) :
    selectMetricsTable nowNs startTime = "otel_metrics_1h"
      ↔ 90 * dayNs < (nowNs : Int) - (startTime : Int) := by
  unfold selectMetricsTable
  by_cases h90 : (nowNs : Int) - (startTime : Int) > 90 * dayNs
  · rw [if_pos h90]
    exact ⟨fun _ => h90, fun _ => rfl⟩
  · rw [if_neg h90]
    by_cases h30 : (nowNs : Int) - (startTime : Int) > 30 * dayNs
    · rw [if_pos h30]
      exact ⟨fun h => absurd h (by decide), fun h => absurd h h90⟩
    · rw [if_neg h30]
      exact ⟨fun h => absurd h (by decide), fun h => absurd h h90⟩

/-- C1: QueryMetrics selects the physical table from the age of the
requested start time — the raw table up to 30 days, the 5-minute
rollup up to 90 days, the 1-hour rollup beyond — and over a rollup the
four aggregations are rewritten onto the pre-aggregated columns; in
particular a request 45 days old asking for avg is served from the
5-minute rollup with the aggregation avg(value_avg) in the generated
SQL. -/
theorem queryMetrics_table_selection (nowNs : Nat) (req : MetricsQueryRequest) :
    (selectMetricsTable nowNs req.StartTime = "otel_metrics"
       ↔ (nowNs : Int) - (req.StartTime : Int) ≤ 30 * dayNs)
  ∧ (selectMetricsTable nowNs req.StartTime = "otel_metrics_5m"
       ↔ (30 * dayNs < (nowNs : Int) - (req.StartTime : Int)
           ∧ (nowNs : Int) - (req.StartTime : Int) ≤ 90 * dayNs))
  ∧ (selectMetricsTable nowNs req.StartTime = "otel_metrics_1h"
       ↔ 90 * dayNs < (nowNs : Int) - (req.StartTime : Int))
  ∧ (metricsAggFunc "otel_metrics_5m" "avg" = "avg(value_avg)"
      ∧ metricsAggFunc "otel_metrics_5m" "min" = "min(value_min)"
      ∧ metricsAggFunc "otel_metrics_5m" "max" = "max(value_max)"
      ∧ metricsAggFunc "otel_metrics_5m" "sum" = "sum(value_sum)"
      ∧ metricsAggFunc "otel_metrics_1h" "avg" = "avg(value_avg)"
      ∧ metricsAggFunc "otel_metrics_1h" "min" = "min(value_min)"
      ∧ metricsAggFunc "otel_metrics_1h" "max" = "max(value_max)"
      ∧ metricsAggFunc "otel_metrics_1h" "sum" = "sum(value_sum)")
  ∧ ((nowNs : Int) - (req.StartTime : Int) = 45 * dayNs → req.Aggregation = "avg" →
       selectMetricsTable nowNs req.StartTime = "otel_metrics_5m"
       ∧ ∃ a b, queryMetricsSQL nowNs req = a ++ ("avg(value_avg)" ++ b)) := by
  refine ⟨selectMetricsTable_eq_raw_iff nowNs req.StartTime,
    selectMetricsTable_eq_5m_iff nowNs req.StartTime,
    selectMetricsTable_eq_1h_iff nowNs req.StartTime,
    ⟨by decide, by decide, by decide, by decide, by decide, by decide, by decide, by decide⟩,
    ?_⟩
  intro h45 hagg
  have h90 : ¬ ((nowNs : Int) - (req.StartTime : Int) > 90 * dayNs) := by
    rw [h45]
    norm_num [dayNs]
  have h30 : (nowNs : Int) - (req.StartTime : Int) > 30 * dayNs := by
    rw [h45]
    norm_num [dayNs]
  have hsel : selectMetricsTable nowNs req.StartTime = "otel_metrics_5m" := by
    unfold selectMetricsTable
    rw [if_neg h90, if_pos h30]
  refine ⟨hsel, ?_⟩
  have hagg2 : metricsEffectiveAggregation req = "avg" := by
    simp [metricsEffectiveAggregation, hagg]
  simp only [queryMetricsSQL, hagg2, hsel]
  rw [show metricsAggFunc "otel_metrics_5m" "avg" = "avg(value_avg)" from by decide]
  by_cases hsv : req.ServiceName ≠ ""
  · rw [if_pos hsv]
    simp only [String.append_assoc]
    exact ⟨_, _, rfl⟩
  · rw [if_neg hsv]
    simp only [String.append_assoc]
    exact ⟨_, _, rfl⟩

/-- C1 witness: at a clock reading 45 days after the requested start
time with the aggregation avg, the 5-minute rollup is selected and the
generated SQL contains avg(value_avg). -/
theorem queryMetrics_table_selection_witness :
    selectMetricsTable now45 mreq45.StartTime = "otel_metrics_5m"
  ∧ ∃ a b, queryMetricsSQL now45 mreq45 = a ++ ("avg(value_avg)" ++ b) :=
  (queryMetrics_table_selection now45 mreq45).2.2.2.2
    (by norm_num [now45, dayNs, mreq45]) rfl
